import Mathlib

/-!
A shallow embedding of the core pure logic of the `prtg-tool` command-line
client (configuration resolution, API request construction, HTTP-outcome
classification, batch fan-out operations, and response-model coercions),
together with theorems checking its natural-language specification.

Python-level conventions used throughout the embedding:

* Python `dict`s of query parameters are association lists updated in
  insertion order (`dict.update` replaces an existing key in place, later
  values winning, and appends unknown keys).
* Python `x or y` on optional strings returns `x` when it is truthy
  (present and non-empty) and `y` otherwise.
* Python string methods (`rstrip`, `strip`, `lower`, `startswith`,
  substring `in`) are modelled on the underlying character lists.
* Network effects are modelled by oracles: a per-id outcome function
  stands for the single-item HTTP call, and classification functions take
  the HTTP status and body as arguments.
* Exceptions are values of an explicit error type; the Python class
  hierarchy (three specific errors deriving from the base client error)
  is modelled by an explicit subclass relation.
-/

namespace Prtg

/-- Python whitespace test for the characters relevant to `str.strip` /
`str.split` (ASCII whitespace). -/
def pyIsSpace (c : Char) : Bool :=
  c = ' ' || c = '\t' || c = '\n' || c = '\r' || c = '\x0b' || c = '\x0c'

/-- Python `str.strip()`: drop leading and trailing whitespace. -/
def pyStrip (s : String) : String :=
  ⟨((s.data.dropWhile pyIsSpace).reverse.dropWhile pyIsSpace).reverse⟩

/-- Python `str.lower()` (ASCII model). -/
def pyLower (s : String) : String :=
  ⟨s.data.map Char.toLower⟩

/-- Python substring test `needle in hay`. -/
def pyInStr (needle hay : String) : Bool :=
  decide (needle.data <:+: hay.data)

/-- Python `s.startswith(p)`. -/
def strStartsWith (s p : String) : Bool :=
  p.data.isPrefixOf s.data

/-- Python `s.endswith(p)`. -/
def strEndsWith (s p : String) : Bool :=
  p.data.reverse.isPrefixOf s.data.reverse

/-- Drop the last `n` characters of a string (Python `s[:-n]` for `n ≤ len`). -/
def strDropRight (s : String) (n : Nat) : String :=
  ⟨(s.data.reverse.drop n).reverse⟩

/-- Python `s.rstrip("/")`: drop every trailing slash. -/
def pyRstripSlash (s : String) : String :=
  ⟨(s.data.reverse.dropWhile (fun c => c = '/')).reverse⟩

/-- Python `s.split()`: split on whitespace runs, no empty tokens. -/
def pySplitWs (s : String) : List String :=
  ((s.data.splitOnP pyIsSpace).filter (fun w => w ≠ [])).map (fun w => ⟨w⟩)

/-! Python `dict` model: association lists with `dict.update` semantics. -/

/-- Setting one key in a Python dict: replace the first binding of the key in
place, or append the binding when the key is absent. -/
def pySet : List (String × String) → String → String → List (String × String)
  | [], k, v => [(k, v)]
  | p :: rest, k, v => if p.1 = k then (k, v) :: rest else p :: pySet rest k v

/-- Python `d.update(other)`: fold every binding of `other` into `d`, later
bindings overriding earlier ones on key collision. -/
def pyDictUpdate (d other : List (String × String)) : List (String × String) :=
  other.foldl (fun acc p => pySet acc p.1 p.2) d

/-- Python `d.get(k)`: the value of the first binding of `k`, if any. -/
def pyGet (d : List (String × String)) (k : String) : Option String :=
  (d.find? (fun p => p.1 = k)).map Prod.snd

/-! Request construction in the API client (`src/prtg/client.py`). -/

/-- PRTGClient._build_auth_params (client.py lines 70-78): the dictionary
holding the profile's api token. -/
def build_auth_params (apiToken : String) : List (String × String) :=
  [("apitoken", apiToken)]

/-- Parameter merge of PRTGClient._request (client.py lines 103-106): start
from the auth params and, when caller params were given and non-empty
(Python truthiness of an optional dict), `update` with them. -/
def requestParams (apiToken : String) (params : Option (List (String × String))) :
    List (String × String) :=
  let base := build_auth_params apiToken
  match params with
  | none => base
  | some p => if p = [] then base else pyDictUpdate base p

/-- Parameter merge of PRTGClient.get_sensor_historicdata (client.py lines
490-502): auth params updated with the fixed endpoint params. -/
def historicdataParams (apiToken sensorId startDate endDate : String)
    (avgInterval : Int) : List (String × String) :=
  pyDictUpdate (build_auth_params apiToken)
    [("id", sensorId), ("sdate", startDate), ("edate", endDate),
     ("avg", toString avgInterval)]

/-! Configuration resolution (`src/prtg/config.py`). -/

/-- Python `a or b` over optional strings: `a` when present and non-empty,
otherwise `b`. -/
def pyOr (a b : Option String) : Option String :=
  match a with
  | some s => if s = "" then b else some s
  | none => b

/-- Truthiness of an optional string source (set and non-empty). -/
def truthy : Option String → Bool
  | some s => s ≠ ""
  | none => false

/-- Token resolution chain of ConfigManager.get_config (config.py lines
103-111): explicit argument, then the three environment variables, then the
three config-file keys, combined with Python `or`. -/
def resolveApiToken (apiTokenArg envMain envRW envRO fileMain fileRW fileRO :
    Option String) : Option String :=
  pyOr apiTokenArg
    (pyOr envMain
      (pyOr envRW
        (pyOr envRO
          (pyOr fileMain
            (pyOr fileRW fileRO)))))

/-- URL normalization of PRTGConfig.__post_init__ (config.py lines 27-32):
`url.rstrip("/")`, then prepend the scheme when
`url.startswith(("http://", "https://"))` is false. -/
def postInitUrl (url : String) : String :=
  let u := pyRstripSlash url
  if strStartsWith u "http://" || strStartsWith u "https://" then u
  else "https://" ++ u

/-- PRTGConfig.__post_init__ (config.py lines 20-32): reject empty url or
token, then normalize the url. Returns the normalized url. -/
def postInit (url apiToken : String) : Except String String :=
  if url = "" then .error "PRTG URL is required"
  else if apiToken = "" then .error "API token is required"
  else .ok (postInitUrl url)

/-- Rendering of the specification's words for claim C5: strip exactly one
trailing slash if one is present, then prepend the scheme when absent. -/
def specNormalizeOneSlash (s : String) : String :=
  let t := if strEndsWith s "/" then strDropRight s 1 else s
  if strStartsWith t "http://" || strStartsWith t "https://" then t
  else "https://" ++ t

/-- Removal of every trailing slash, written by structural recursion from the
front; used to state the amended form of claim C5 independently of the
`reverse`/`dropWhile` shape of `pyRstripSlash`. -/
def stripAllTrailingSlashes : List Char → List Char
  | [] => []
  | c :: cs =>
    let rest := stripAllTrailingSlashes cs
    if rest = [] then (if c = '/' then [] else [c]) else c :: rest

/-- Amended specification wording for claim C5: strip every trailing slash,
then prepend the scheme when absent. -/
def specNormalizeAllSlashes (s : String) : String :=
  let t : String := ⟨stripAllTrailingSlashes s.data⟩
  if strStartsWith t "http://" || strStartsWith t "https://" then t
  else "https://" ++ t

/-! Historic-data date-range validation (`src/prtg/commands/sensor.py`). -/

/-- A historic-data request the command is about to issue (sensor id, parsed
start and end timestamps in seconds, averaging interval in seconds). -/
structure HistoricDataCall where
  sensorId : String
  startTs : Int
  endTs : Int
  avgInterval : Int
deriving DecidableEq

/-- Explicit date-range validation of the `sensor data` command (sensor.py
lines 291-308 followed by the request at lines 316-322). Dates parsed by
`strptime` are modelled by their timestamps in seconds;
`(end_dt - start_dt).days` is `fdiv` by 86400, which floors exactly as
Python's `timedelta.days` does. An `error` value is the local `sys.exit`
code raised before any HTTP request; an `ok` value carries the request that
is then issued. -/
def sensorDataValidate (sensorId : String) (startTs endTs avgInterval : Int) :
    Except Nat HistoricDataCall :=
  let deltaDays := (endTs - startTs).fdiv 86400
  if avgInterval = 0 ∧ deltaDays > 40 then .error 5
  else if deltaDays > 500 then .error 5
  else .ok ⟨sensorId, startTs, endTs, avgInterval⟩

/-! Exception taxonomy of the client (`src/prtg/client.py` lines 16-37). -/

/-- Exception classes raised by the client: PRTGClientError and its three
subclasses. -/
inductive ExcClass where
  | clientError
  | authenticationError
  | notFoundError
  | apiError
deriving DecidableEq

/-- Python subclass test for the hierarchy of client.py lines 16-37: every
class is a subclass of itself, and the three specific errors derive from
PRTGClientError. -/
def subclassOf (c p : ExcClass) : Bool :=
  c = p || p = ExcClass.clientError

/-- A raised exception: its class and its message (`str(e)`). -/
structure PRTGExc where
  cls : ExcClass
  msg : String
deriving DecidableEq

/-- Python `except (H1, H2, ...)`: the exception is caught when its class is
a subclass of one of the listed handler classes. -/
def caughtBy (e : ExcClass) (handlers : List ExcClass) : Bool :=
  handlers.any (fun h => subclassOf e h)

/-! Batch device move (`src/prtg/client.py` lines 725-757). -/

/-- One entry of the move_devices result list. -/
structure MoveResult where
  device_id : String
  success : Bool
  error : Option String
deriving DecidableEq

/-- PRTGClient.move_devices (client.py lines 725-757). The per-id network
call `move_device` is abstracted by `moveOutcome`: `none` means the call
returned `True`, `some e` means it raised `e`. A raised exception matching
`except (PRTGClientError, PRTGAPIError, PRTGNotFoundError)` becomes a
failure record and the loop continues; an unmatched exception propagates
(`Except.error`). -/
def move_devices (moveOutcome : String → Option PRTGExc) :
    List String → Except PRTGExc (List MoveResult)
  | [] => .ok []
  | id :: rest =>
    match moveOutcome id with
    | none =>
      match move_devices moveOutcome rest with
      | .ok rs => .ok ({ device_id := id, success := true, error := none } :: rs)
      | .error e2 => .error e2
    | some e =>
      if caughtBy e.cls [.clientError, .apiError, .notFoundError] then
        match move_devices moveOutcome rest with
        | .ok rs => .ok ({ device_id := id, success := false, error := some e.msg } :: rs)
        | .error e2 => .error e2
      else .error e

/-- The record move_devices appends for a single id, written directly from
the per-id outcome. -/
def moveRecordFor (moveOutcome : String → Option PRTGExc) (id : String) :
    MoveResult :=
  match moveOutcome id with
  | none => { device_id := id, success := true, error := none }
  | some e => { device_id := id, success := false, error := some e.msg }

/-! Batch lookups (`src/prtg/client.py` lines 274-298 and 435-459). -/

/-- PRTGClient.get_devices_by_ids (client.py lines 274-298). The per-id call
`get_device` is abstracted by the oracle `get_device`; `except
PRTGNotFoundError` skips the id, any other exception propagates. -/
def get_devices_by_ids {Device : Type}
    (get_device : String → Except PRTGExc Device) :
    List String → Except PRTGExc (List Device)
  | [] => .ok []
  | id :: rest =>
    match get_device id with
    | .ok d =>
      match get_devices_by_ids get_device rest with
      | .ok ds => .ok (d :: ds)
      | .error e => .error e
    | .error e =>
      if subclassOf e.cls .notFoundError then get_devices_by_ids get_device rest
      else .error e

/-- PRTGClient.get_sensors_by_ids (client.py lines 435-459), identical to the
device variant up to the record type and the per-id call. -/
def get_sensors_by_ids {Sensor : Type}
    (get_sensor : String → Except PRTGExc Sensor) :
    List String → Except PRTGExc (List Sensor)
  | [] => .ok []
  | id :: rest =>
    match get_sensor id with
    | .ok s =>
      match get_sensors_by_ids get_sensor rest with
      | .ok ss => .ok (s :: ss)
      | .error e => .error e
    | .error e =>
      if subclassOf e.cls .notFoundError then get_sensors_by_ids get_sensor rest
      else .error e

/-- Whether a per-id lookup outcome is survivable for the by-ids batch: a
success, or an error caught by `except PRTGNotFoundError`. -/
def lookupSurvivable {α : Type} : Except PRTGExc α → Bool
  | .ok _ => true
  | .error e => subclassOf e.cls .notFoundError

/-! Single device move, response handling (`src/prtg/client.py` lines
694-712). -/

/-- Response classification of PRTGClient.move_device after the HTTP exchange
(client.py lines 694-712): 401, 404 and other ≥400 statuses raise; below
400, `raise_for_status` is a no-op and success is decided by the
case-insensitive substring test `"ok" in response.text.strip().lower()`. -/
def move_device_handleResponse (deviceId targetGroupId : String)
    (status : Nat) (body : String) : Except PRTGExc Bool :=
  if status = 401 then
    .error ⟨.authenticationError, "Authentication failed. Check API token."⟩
  else if status = 404 then
    .error ⟨.notFoundError,
      "Device or target group not found: " ++ deviceId ++ " -> " ++ targetGroupId⟩
  else if 400 ≤ status then
    .error ⟨.apiError, "API error: " ++ toString status ++ " - " ++ body⟩
  else if pyInStr "ok" (pyLower (pyStrip body)) then .ok true
  else .error ⟨.apiError, "Unexpected response from move operation: " ++ body⟩

/-! Response-model coercions (`src/prtg/models/base.py` and
`src/prtg/models/group.py`). -/

/-- A scalar JSON payload value as the upstream API delivers it. -/
inductive JsonVal where
  | null
  | str (s : String)
  | num (n : Int)
  | arr (xs : List JsonVal)

/-- Python `str()` of a scalar payload value. -/
def pyStr : JsonVal → String
  | .null => "None"
  | .str s => s
  | .num n => toString n
  | .arr _ => "[...]"

/-- PRTGObjectModel.convert_objid (base.py lines 24-30): `None` becomes the
empty string, anything else is passed through `str`. -/
def convert_objid : JsonVal → JsonVal
  | .null => .str ""
  | v => .str (pyStr v)

/-- The list comprehension of PRTGObjectModel.parse_tags (base.py line 42):
split on whitespace, strip each token, keep the truthy ones. -/
def parse_tags_list (s : String) : List String :=
  ((pySplitWs s).map pyStrip).filter (fun t => t ≠ "")

/-- PRTGObjectModel.parse_tags (base.py lines 32-45): a string is split into
tokens, a list passes through, anything else becomes the empty list. -/
def parse_tags : JsonVal → JsonVal
  | .str s => .arr ((parse_tags_list s).map JsonVal.str)
  | .arr xs => .arr xs
  | _ => .arr []

/-- Pydantic validation of a required `str` field under
`str_strip_whitespace=True`: the value must be a string and is stripped. -/
def validateStrField (fieldName : String) : JsonVal → Except String String
  | .str s => .ok (pyStrip s)
  | _ => .error (fieldName ++ ": Input should be a valid string")

/-- Pydantic validation of a `List[str]` field under
`str_strip_whitespace=True`: every element must be a string. -/
def validateStrList : List JsonVal → Except String (List String)
  | [] => .ok []
  | .str s :: rest => (validateStrList rest).map (fun ts => pyStrip s :: ts)
  | _ :: _ => .error "tags: Input should be a valid string"

/-- Presence check for a required pydantic field. -/
def requireField (fieldName : String) : Option JsonVal → Except String JsonVal
  | none => .error (fieldName ++ ": Field required")
  | some v => .ok v

/-- The shared base record of Device and Sensor (base.py lines 17-45). The
further Device/Sensor columns do not interact with the objid coercion and
are carried by the subclasses unchanged. -/
structure PRTGObjectModel where
  objid : String
  name : String
  tags : List String
deriving DecidableEq

/-- Construction of a PRTGObjectModel (hence of a Device or Sensor, which
inherit these fields and validators) from a payload: `objid` is required and
passes through convert_objid, `name` is required, `tags` defaults to the
empty list and passes through parse_tags. -/
def mkPRTGObject (objidF nameF tagsF : Option JsonVal) :
    Except String PRTGObjectModel := do
  let ov ← requireField "objid" objidF
  let oid ← validateStrField "objid" (convert_objid ov)
  let nv ← requireField "name" nameF
  let nm ← validateStrField "name" nv
  let tg ←
    match tagsF with
    | none => Except.ok ([] : List String)
    | some v =>
      match parse_tags v with
      | .arr xs => validateStrList xs
      | _ => Except.error "tags: Input should be a valid list"
  Except.ok ⟨oid, nm, tg⟩

/-- Group.convert_to_string (group.py lines 32-38): `None` becomes the empty
string, anything else is passed through `str`. -/
def convert_to_string : JsonVal → JsonVal
  | .null => .str ""
  | v => .str (pyStr v)

/-- Group.strip_whitespace (group.py lines 40-46): strip a string value, pass
anything else through. -/
def strip_whitespace : JsonVal → JsonVal
  | .str s => .str (pyStrip s)
  | v => v

/-- The Group record (group.py lines 7-46). The optional `*_raw` convenience
fields default to None and do not interact with the claimed coercions; the
five declared data fields are modelled. -/
structure Group where
  objid : String
  name : String
  probe : String
  group : String
  parentid : String
deriving DecidableEq

/-- Construction of a Group from a payload: objid and parentid are required
and pass through convert_to_string, name is required and stripped, probe and
group default to the empty string. -/
def mkGroup (objidF nameF probeF groupF parentidF : Option JsonVal) :
    Except String Group := do
  let ov ← requireField "objid" objidF
  let oid ← validateStrField "objid" (convert_to_string ov)
  let nv ← requireField "name" nameF
  let nm ← validateStrField "name" (strip_whitespace nv)
  let pr ←
    match probeF with
    | none => Except.ok ""
    | some v => validateStrField "probe" (strip_whitespace v)
  let gr ←
    match groupF with
    | none => Except.ok ""
    | some v => validateStrField "group" (strip_whitespace v)
  let pv ← requireField "parentid" parentidF
  let pid ← validateStrField "parentid" (convert_to_string pv)
  Except.ok ⟨oid, nm, pr, gr, pid⟩

/-! Lemmas about the Python dict model. -/

theorem pyGet_cons (q : String × String) (d : List (String × String)) (k : String) :
    pyGet (q :: d) k = if q.1 = k then some q.2 else pyGet d k := by
  by_cases h : q.1 = k
  · simp [pyGet, List.find?_cons, h]
  · simp [pyGet, List.find?_cons, h]

theorem pyGet_pySet (d : List (String × String)) (k v k2 : String) :
    pyGet (pySet d k v) k2 = if k2 = k then some v else pyGet d k2 := by
  induction d with
  | nil =>
    simp only [pySet]
    rw [pyGet_cons]
    by_cases h : k2 = k
    · subst h; simp [pyGet]
    · have hk : ¬ k = k2 := fun hh => h (Eq.symm hh)
      simp [pyGet, hk, h]
  | cons p rest ih =>
    simp only [pySet]
    by_cases hpk : p.1 = k
    · rw [if_pos hpk, pyGet_cons, pyGet_cons, hpk]
      by_cases h : k2 = k
      · subst h; simp
      · have hk : ¬ k = k2 := fun hh => h (Eq.symm hh)
        simp [hk, h]
    · rw [if_neg hpk, pyGet_cons, ih, pyGet_cons]
      by_cases hp2 : p.1 = k2
      · have h : ¬ k2 = k := fun hh => hpk (by rw [hh] at hp2; exact hp2)
        simp [hp2, h]
      · simp [hp2]

theorem pyGet_pyDictUpdate_of_no_key (d other : List (String × String)) (k : String)
    (h : ∀ q ∈ other, q.1 ≠ k) : pyGet (pyDictUpdate d other) k = pyGet d k := by
  induction other generalizing d with
  | nil => rfl
  | cons q rest ih =>
    have h1 : q.1 ≠ k := h q (List.mem_cons_self q rest)
    have h2 : ∀ q2 ∈ rest, q2.1 ≠ k := fun q2 hq2 => h q2 (List.mem_cons_of_mem q hq2)
    simp only [pyDictUpdate, List.foldl_cons] at *
    rw [ih (pySet d q.1 q.2) h2, pyGet_pySet, if_neg (fun hh => h1 (Eq.symm hh))]

theorem pyGet_pySet_isSome (d : List (String × String)) (k v k2 : String)
    (h : (pyGet d k2).isSome = true) : (pyGet (pySet d k v) k2).isSome = true := by
  rw [pyGet_pySet]
  by_cases hk : k2 = k <;> simp [hk, h]

theorem pyGet_pyDictUpdate_isSome (d other : List (String × String)) (k : String)
    (h : (pyGet d k).isSome = true) : (pyGet (pyDictUpdate d other) k).isSome = true := by
  induction other generalizing d with
  | nil => exact h
  | cons q rest ih =>
    simp only [pyDictUpdate, List.foldl_cons] at *
    exact ih (pySet d q.1 q.2) (pyGet_pySet_isSome d q.1 q.2 k h)

theorem pyGet_auth (token : String) :
    pyGet (build_auth_params token) "apitoken" = some token := by
  simp [pyGet, build_auth_params]

/-- Claim C1 as stated is false: when the caller-supplied endpoint params
themselves contain an "apitoken" key, `dict.update` lets the caller's value
override the profile token. Concretely, a request built with endpoint params
holding apitoken "evil" over the profile token "secret" carries "evil". -/
theorem c1_counterexample :
    pyGet (requestParams "secret" (some [("apitoken", "evil")])) "apitoken" ≠
      some "secret" := by
  decide

/-- C1 (amended): the apitoken parameter is always present in the built
request params; it equals the profile token whenever the caller-supplied
endpoint params do not themselves contain an "apitoken" key (in particular
when no params are given), and the params built by get_sensor_historicdata
always carry the profile token; a caller-supplied "apitoken" key, however,
overrides the token. -/
theorem requestParams_apitoken (token : String) :
    (∀ ps, (pyGet (requestParams token ps) "apitoken").isSome = true) ∧
    (∀ p, (∀ q ∈ p, q.1 ≠ "apitoken") →
      pyGet (requestParams token (some p)) "apitoken" = some token) ∧
    (pyGet (requestParams token none) "apitoken" = some token) ∧
    (∀ sid sd ed avg,
      pyGet (historicdataParams token sid sd ed avg) "apitoken" = some token) := by
  have hbase := pyGet_auth token
  have hsome : (pyGet (build_auth_params token) "apitoken").isSome = true := by
    rw [hbase]; rfl
  refine ⟨?_, ?_, ?_, ?_⟩
  · intro ps
    match ps with
    | none => exact hsome
    | some p =>
      simp only [requestParams]
      by_cases hp : p = []
      · rw [if_pos hp]; exact hsome
      · rw [if_neg hp]; exact pyGet_pyDictUpdate_isSome _ _ _ hsome
  · intro p hp
    simp only [requestParams]
    by_cases hnil : p = []
    · rw [if_pos hnil]; exact hbase
    · rw [if_neg hnil, pyGet_pyDictUpdate_of_no_key _ _ _ hp]; exact hbase
  · exact hbase
  · intro sid sd ed avg
    unfold historicdataParams
    rw [pyGet_pyDictUpdate_of_no_key _ _ _ ?_]
    · exact hbase
    · intro q hq
      fin_cases hq <;> simp

/-- Witness for the amended C1 at a concrete request. -/
theorem requestParams_apitoken_witness :
    pyGet (requestParams "tok" (some [("content", "devices"), ("count", "500")]))
      "apitoken" = some "tok" :=
  (requestParams_apitoken "tok").2.1 [("content", "devices"), ("count", "500")]
    (by decide)

/-- C2: with an explicit start/end date pair, a raw-interval span of more
than 40 whole days, or a span of more than 500 whole days at any interval,
makes the historic-data command exit locally with code 5 before any request
is issued; a 45-day span at interval 3600 passes validation and the request
is issued. -/
theorem sensorData_dateRange_limits (sid : String) (s e avg : Int) :
    (((avg = 0 ∧ (e - s).fdiv 86400 > 40) ∨ (e - s).fdiv 86400 > 500) →
      sensorDataValidate sid s e avg = .error 5) ∧
    (avg = 3600 → e = s + 45 * 86400 →
      sensorDataValidate sid s e avg = .ok ⟨sid, s, e, avg⟩) := by
  constructor
  · intro h
    unfold sensorDataValidate
    rcases h with h | h
    · rw [if_pos h]
    · by_cases h1 : avg = 0 ∧ (e - s).fdiv 86400 > 40
      · rw [if_pos h1]
      · rw [if_neg h1, if_pos h]
  · intro ha he
    subst ha
    subst he
    unfold sensorDataValidate
    have hd : (s + 45 * 86400 - s).fdiv 86400 = 45 := by
      have h45 : s + 45 * 86400 - s = 45 * 86400 := by ring
      rw [h45]
      decide
    rw [hd]
    norm_num

/-- Witness for C2: a 45-day span passes at interval 3600 and is rejected
with exit code 5 at raw interval. -/
theorem sensorData_dateRange_limits_witness :
    sensorDataValidate "2460" 0 (45 * 86400) 3600 =
      .ok ⟨"2460", 0, 45 * 86400, 3600⟩ ∧
    sensorDataValidate "2460" 0 (45 * 86400) 0 = .error 5 :=
  ⟨(sensorData_dateRange_limits "2460" 0 (45 * 86400) 3600).2 rfl (by decide),
   (sensorData_dateRange_limits "2460" 0 (45 * 86400) 0).1 (Or.inl ⟨rfl, by decide⟩)⟩

/-! Batch move: C3 and C9. -/

theorem caughtBy_move_handlers (c : ExcClass) :
    caughtBy c [.clientError, .apiError, .notFoundError] = true := by
  cases c <;> decide

theorem move_devices_eq_map (o : String → Option PRTGExc) (ids : List String) :
    move_devices o ids = Except.ok (ids.map (moveRecordFor o)) := by
  induction ids with
  | nil => rfl
  | cons id rest ih =>
    cases ho : o id with
    | none => simp [move_devices, ho, ih, moveRecordFor]
    | some e =>
      simp [move_devices, ho, ih, moveRecordFor, caughtBy_move_handlers e.cls]

/-- C3: move_devices returns exactly one record per input id, in input
order; an id whose move failed yields a record with success false and an
error message, a successful id yields success true; and a failure for one id
never prevents the moves for subsequent ids (the result covers every input
id). -/
theorem move_devices_partial_failure (o : String → Option PRTGExc)
    (ids : List String) :
    move_devices o ids = Except.ok (ids.map (moveRecordFor o)) ∧
    (∀ id, (o id = none →
        moveRecordFor o id = { device_id := id, success := true, error := none }) ∧
      (∀ e, o id = some e →
        (moveRecordFor o id).device_id = id ∧
        (moveRecordFor o id).success = false ∧
        (moveRecordFor o id).error = some e.msg)) := by
  refine ⟨move_devices_eq_map o ids, ?_⟩
  intro id
  constructor
  · intro h
    simp [moveRecordFor, h]
  · intro e he
    simp [moveRecordFor, he]

/-- Witness for C3: ids [A, B, C] where B fails yield exactly three records
in input order, B failed with an error message, A and C succeeded. -/
theorem move_devices_partial_failure_witness :
    move_devices
      (fun id => if id = "B" then some ⟨ExcClass.apiError, "boom"⟩ else none)
      ["A", "B", "C"] =
      Except.ok
        [{ device_id := "A", success := true, error := none },
         { device_id := "B", success := false, error := some "boom" },
         { device_id := "C", success := true, error := none }] := by
  rw [(move_devices_partial_failure
        (fun id => if id = "B" then some ⟨ExcClass.apiError, "boom"⟩ else none)
        ["A", "B", "C"]).1]
  rfl

/-- C9: the catch clause of move_devices names the base client-error class,
so every error class of the client hierarchy is caught, and move_devices
never propagates an exception: it always returns a result list. -/
theorem move_devices_catches_all (o : String → Option PRTGExc)
    (ids : List String) :
    (∀ c : ExcClass, caughtBy c [.clientError, .apiError, .notFoundError] = true) ∧
    ∃ rs, move_devices o ids = Except.ok rs :=
  ⟨caughtBy_move_handlers, ⟨ids.map (moveRecordFor o), move_devices_eq_map o ids⟩⟩

/-! Token precedence: C4. -/

theorem pyOr_truthy (a b : Option String) (h : truthy a = true) : pyOr a b = a := by
  cases a with
  | none => simp [truthy] at h
  | some s =>
    simp only [truthy, decide_eq_true_eq] at h
    simp [pyOr, h]

theorem pyOr_falsy (a b : Option String) (h : truthy a = false) : pyOr a b = b := by
  cases a with
  | none => rfl
  | some s =>
    simp only [truthy, decide_eq_false_iff_not, not_not] at h
    simp [pyOr, h]

/-- C4: when at least one token source is set and non-empty, the resolved
api token is the value of the highest-precedence non-empty source, in the
order explicit argument, PRTG_API_TOKEN, PRTG_API_TOKEN_RW,
PRTG_API_TOKEN_RO, config-file api_token, api_token_rw, api_token_ro. -/
theorem resolveApiToken_precedence (c e1 e2 e3 f1 f2 f3 : Option String)
    (h : ([c, e1, e2, e3, f1, f2, f3].find? truthy).isSome = true) :
    [c, e1, e2, e3, f1, f2, f3].find? truthy =
      some (resolveApiToken c e1 e2 e3 f1 f2 f3) := by
  unfold resolveApiToken
  by_cases h1 : truthy c = true
  · rw [List.find?_cons_of_pos _ h1, pyOr_truthy _ _ h1]
  · have h1f : truthy c = false := by simpa using h1
    rw [pyOr_falsy _ _ h1f]
    rw [List.find?_cons_of_neg _ h1] at h ⊢
    by_cases h2 : truthy e1 = true
    · rw [List.find?_cons_of_pos _ h2, pyOr_truthy _ _ h2]
    · have h2f : truthy e1 = false := by simpa using h2
      rw [pyOr_falsy _ _ h2f]
      rw [List.find?_cons_of_neg _ h2] at h ⊢
      by_cases h3 : truthy e2 = true
      · rw [List.find?_cons_of_pos _ h3, pyOr_truthy _ _ h3]
      · have h3f : truthy e2 = false := by simpa using h3
        rw [pyOr_falsy _ _ h3f]
        rw [List.find?_cons_of_neg _ h3] at h ⊢
        by_cases h4 : truthy e3 = true
        · rw [List.find?_cons_of_pos _ h4, pyOr_truthy _ _ h4]
        · have h4f : truthy e3 = false := by simpa using h4
          rw [pyOr_falsy _ _ h4f]
          rw [List.find?_cons_of_neg _ h4] at h ⊢
          by_cases h5 : truthy f1 = true
          · rw [List.find?_cons_of_pos _ h5, pyOr_truthy _ _ h5]
          · have h5f : truthy f1 = false := by simpa using h5
            rw [pyOr_falsy _ _ h5f]
            rw [List.find?_cons_of_neg _ h5] at h ⊢
            by_cases h6 : truthy f2 = true
            · rw [List.find?_cons_of_pos _ h6, pyOr_truthy _ _ h6]
            · have h6f : truthy f2 = false := by simpa using h6
              rw [pyOr_falsy _ _ h6f]
              rw [List.find?_cons_of_neg _ h6] at h ⊢
              by_cases h7 : truthy f3 = true
              · rw [List.find?_cons_of_pos _ h7]
              · rw [List.find?_cons_of_neg _ h7] at h
                simp at h

/-- Witness for C4: with the explicit argument unset, the main env token set
but empty, and lower-precedence sources also set, the RW env token wins. -/
theorem resolveApiToken_precedence_witness :
    resolveApiToken none (some "") (some "rwtok") none (some "ignored") none none =
      some "rwtok" := by
  have h := resolveApiToken_precedence none (some "") (some "rwtok") none
    (some "ignored") none none (by decide)
  have hf : [Option.none, some "", some "rwtok", none, some "ignored", none,
      none].find? truthy = some (some "rwtok") := by decide
  rw [hf] at h
  exact (Option.some.inj h).symm

/-! Batch lookups: C7. -/

theorem get_devices_by_ids_ok {Device : Type}
    (f : String → Except PRTGExc Device) (ids : List String)
    (h : ∀ id ∈ ids, lookupSurvivable (f id) = true) :
    get_devices_by_ids f ids =
      Except.ok (ids.filterMap (fun id => (f id).toOption)) := by
  induction ids with
  | nil => rfl
  | cons id rest ih =>
    have hid := h id (List.mem_cons_self id rest)
    have hrest : ∀ i ∈ rest, lookupSurvivable (f i) = true :=
      fun i hi => h i (List.mem_cons_of_mem id hi)
    cases hf : f id with
    | ok d =>
      simp [get_devices_by_ids, hf, ih hrest, List.filterMap_cons, Except.toOption]
    | error e =>
      have hcls : subclassOf e.cls ExcClass.notFoundError = true := by
        simpa [lookupSurvivable, hf] using hid
      simp [get_devices_by_ids, hf, hcls, ih hrest, List.filterMap_cons,
        Except.toOption]

theorem get_devices_by_ids_aborts {Device : Type}
    (f : String → Except PRTGExc Device) (ids : List String)
    (h : ∃ id ∈ ids, lookupSurvivable (f id) = false) :
    ∃ e, get_devices_by_ids f ids = Except.error e ∧
      subclassOf e.cls ExcClass.notFoundError = false := by
  induction ids with
  | nil => simp at h
  | cons id rest ih =>
    cases hf : f id with
    | ok d =>
      have hr : ∃ i ∈ rest, lookupSurvivable (f i) = false := by
        rcases h with ⟨i, hi, hfi⟩
        rcases List.mem_cons.mp hi with rfl | hi2
        · rw [hf] at hfi
          simp [lookupSurvivable] at hfi
        · exact ⟨i, hi2, hfi⟩
      rcases ih hr with ⟨e, he, hcls⟩
      exact ⟨e, by simp [get_devices_by_ids, hf, he], hcls⟩
    | error e =>
      by_cases hcls : subclassOf e.cls ExcClass.notFoundError = true
      · have hr : ∃ i ∈ rest, lookupSurvivable (f i) = false := by
          rcases h with ⟨i, hi, hfi⟩
          rcases List.mem_cons.mp hi with rfl | hi2
          · rw [hf] at hfi
            simp [lookupSurvivable, hcls] at hfi
          · exact ⟨i, hi2, hfi⟩
        rcases ih hr with ⟨e2, he2, hcls2⟩
        exact ⟨e2, by simp [get_devices_by_ids, hf, hcls, he2], hcls2⟩
      · have hcf : subclassOf e.cls ExcClass.notFoundError = false := by
          simpa using hcls
        exact ⟨e, by simp [get_devices_by_ids, hf, hcf], hcf⟩

theorem get_sensors_by_ids_ok {Sensor : Type}
    (f : String → Except PRTGExc Sensor) (ids : List String)
    (h : ∀ id ∈ ids, lookupSurvivable (f id) = true) :
    get_sensors_by_ids f ids =
      Except.ok (ids.filterMap (fun id => (f id).toOption)) := by
  induction ids with
  | nil => rfl
  | cons id rest ih =>
    have hid := h id (List.mem_cons_self id rest)
    have hrest : ∀ i ∈ rest, lookupSurvivable (f i) = true :=
      fun i hi => h i (List.mem_cons_of_mem id hi)
    cases hf : f id with
    | ok s =>
      simp [get_sensors_by_ids, hf, ih hrest, List.filterMap_cons, Except.toOption]
    | error e =>
      have hcls : subclassOf e.cls ExcClass.notFoundError = true := by
        simpa [lookupSurvivable, hf] using hid
      simp [get_sensors_by_ids, hf, hcls, ih hrest, List.filterMap_cons,
        Except.toOption]

theorem get_sensors_by_ids_aborts {Sensor : Type}
    (f : String → Except PRTGExc Sensor) (ids : List String)
    (h : ∃ id ∈ ids, lookupSurvivable (f id) = false) :
    ∃ e, get_sensors_by_ids f ids = Except.error e ∧
      subclassOf e.cls ExcClass.notFoundError = false := by
  induction ids with
  | nil => simp at h
  | cons id rest ih =>
    cases hf : f id with
    | ok s =>
      have hr : ∃ i ∈ rest, lookupSurvivable (f i) = false := by
        rcases h with ⟨i, hi, hfi⟩
        rcases List.mem_cons.mp hi with rfl | hi2
        · rw [hf] at hfi
          simp [lookupSurvivable] at hfi
        · exact ⟨i, hi2, hfi⟩
      rcases ih hr with ⟨e, he, hcls⟩
      exact ⟨e, by simp [get_sensors_by_ids, hf, he], hcls⟩
    | error e =>
      by_cases hcls : subclassOf e.cls ExcClass.notFoundError = true
      · have hr : ∃ i ∈ rest, lookupSurvivable (f i) = false := by
          rcases h with ⟨i, hi, hfi⟩
          rcases List.mem_cons.mp hi with rfl | hi2
          · rw [hf] at hfi
            simp [lookupSurvivable, hcls] at hfi
          · exact ⟨i, hi2, hfi⟩
        rcases ih hr with ⟨e2, he2, hcls2⟩
        exact ⟨e2, by simp [get_sensors_by_ids, hf, hcls, he2], hcls2⟩
      · have hcf : subclassOf e.cls ExcClass.notFoundError = false := by
          simpa using hcls
        exact ⟨e, by simp [get_sensors_by_ids, hf, hcf], hcf⟩

/-- C7: for every id list, the get-many operations invoke the single lookup
per id; when every per-id failure is a NotFoundError, the result is exactly
the successful records in input order (ids that 404 are omitted); when some
id fails with any other error kind, the batch aborts with an error of that
non-NotFound kind. Stated for get_devices_by_ids and get_sensors_by_ids
(client.py 274-298 and 435-459); get_groups_by_ids repeats the same code. -/
theorem get_by_ids_notfound_swallowed {Device Sensor : Type}
    (get_device : String → Except PRTGExc Device)
    (get_sensor : String → Except PRTGExc Sensor) (ids : List String) :
    ((∀ id ∈ ids, lookupSurvivable (get_device id) = true) →
      get_devices_by_ids get_device ids =
        Except.ok (ids.filterMap (fun id => (get_device id).toOption))) ∧
    ((∃ id ∈ ids, lookupSurvivable (get_device id) = false) →
      ∃ e, get_devices_by_ids get_device ids = Except.error e ∧
        subclassOf e.cls ExcClass.notFoundError = false) ∧
    ((∀ id ∈ ids, lookupSurvivable (get_sensor id) = true) →
      get_sensors_by_ids get_sensor ids =
        Except.ok (ids.filterMap (fun id => (get_sensor id).toOption))) ∧
    ((∃ id ∈ ids, lookupSurvivable (get_sensor id) = false) →
      ∃ e, get_sensors_by_ids get_sensor ids = Except.error e ∧
        subclassOf e.cls ExcClass.notFoundError = false) :=
  ⟨get_devices_by_ids_ok get_device ids,
   get_devices_by_ids_aborts get_device ids,
   get_sensors_by_ids_ok get_sensor ids,
   get_sensors_by_ids_aborts get_sensor ids⟩

/-- Witness for C7: ids [A, B, missing] where missing 404s return exactly
the two successful records, in input order. -/
theorem get_by_ids_notfound_swallowed_witness :
    get_devices_by_ids
      (fun id => if id = "missing"
        then Except.error ⟨ExcClass.notFoundError, "Device not found: missing"⟩
        else Except.ok (String.append "record-" id))
      ["A", "B", "missing"] = Except.ok ["record-A", "record-B"] := by
  rw [(get_by_ids_notfound_swallowed
        (fun id => if id = "missing"
          then Except.error ⟨ExcClass.notFoundError, "Device not found: missing"⟩
          else Except.ok (String.append "record-" id))
        (fun _ => Except.ok "")
        ["A", "B", "missing"]).1 (by decide)]
  rfl

/-! URL normalization: C5 and C6. -/

theorem stripAllTrailingSlashes_append_single (l : List Char) (c : Char) :
    stripAllTrailingSlashes (l ++ [c]) =
      if c = '/' then stripAllTrailingSlashes l else l ++ [c] := by
  induction l with
  | nil =>
    by_cases hc : c = '/' <;> simp [stripAllTrailingSlashes, hc]
  | cons a t ih =>
    by_cases hc : c = '/'
    · subst hc
      simp [stripAllTrailingSlashes, List.cons_append, List.append_eq, ih]
    · simp only [List.cons_append, stripAllTrailingSlashes, List.append_eq, ih,
        if_neg hc]
      rw [if_neg (show t ++ [c] ≠ [] by simp)]

theorem stripAllTrailingSlashes_eq_dropWhile (l : List Char) :
    stripAllTrailingSlashes l =
      (l.reverse.dropWhile (fun c => c = '/')).reverse := by
  induction l using List.reverseRecOn with
  | nil => rfl
  | append_singleton t c ih =>
    rw [stripAllTrailingSlashes_append_single, List.reverse_append]
    simp only [List.reverse_cons, List.reverse_nil, List.nil_append,
      List.singleton_append]
    by_cases hc : c = '/'
    · rw [if_pos hc, List.dropWhile_cons_of_pos (by simp [hc]), ih]
    · rw [if_neg hc, List.dropWhile_cons_of_neg (by simp [hc]),
        List.reverse_cons, List.reverse_reverse]

/-- Claim C5 as stated is false: normalization strips every trailing slash,
not exactly one. On "prtg.example.com//" the code yields
"https://prtg.example.com" while the strip-exactly-one reading yields
"https://prtg.example.com/". -/
theorem c5_counterexample :
    postInitUrl "prtg.example.com//" ≠
      specNormalizeOneSlash "prtg.example.com//" := by
  decide

/-- C5 (amended): for every non-empty URL, normalization strips all trailing
slashes (however many are present), and then prepends "https://" exactly
when the stripped result does not start with "http://" or "https://". -/
theorem postInitUrl_normalization (s : String) (h : s ≠ "") :
    postInitUrl s = specNormalizeAllSlashes s := by
  unfold postInitUrl specNormalizeAllSlashes pyRstripSlash
  rw [stripAllTrailingSlashes_eq_dropWhile]

/-- Witness for the amended C5 at a concrete URL with two trailing
slashes. -/
theorem postInitUrl_normalization_witness :
    postInitUrl "prtg.example.com//" =
      specNormalizeAllSlashes "prtg.example.com//" :=
  postInitUrl_normalization "prtg.example.com//" (by decide)

/-- Claim C6 as stated is false: the all-slash URL "/" is non-empty, its
normalization is "https://", and normalizing that again yields
"https://https:". -/
theorem c6_counterexample :
    "/" ≠ "" ∧ postInitUrl (postInitUrl "/") ≠ postInitUrl "/" :=
  ⟨by decide, by decide⟩

theorem dropWhile_head_false {α : Type} {p : α → Bool} :
    ∀ (x : List α) (a : α) (t : List α), x.dropWhile p = a :: t → p a = false := by
  intro x
  induction x with
  | nil =>
    intro a t hx
    simp at hx
  | cons c cs ih =>
    intro a t hx
    by_cases hc : p c
    · rw [List.dropWhile_cons_of_pos hc] at hx
      exact ih a t hx
    · rw [List.dropWhile_cons_of_neg hc] at hx
      injection hx with h1 h2
      subst h1
      simpa using hc

theorem pyRstripSlash_fixed (u : String) (a : Char) (t : List Char)
    (hu : u.data.reverse = a :: t) (ha : a ≠ '/') :
    pyRstripSlash u = u := by
  unfold pyRstripSlash
  rw [hu, List.dropWhile_cons_of_neg (by simp [ha]), ← hu, List.reverse_reverse]

theorem postInitUrl_fixed (u : String) (a : Char) (t : List Char)
    (hu : u.data.reverse = a :: t) (ha : a ≠ '/')
    (hsch : strStartsWith u "http://" = true ∨ strStartsWith u "https://" = true) :
    postInitUrl u = u := by
  simp only [postInitUrl]
  rw [pyRstripSlash_fixed u a t hu ha]
  rcases hsch with hs | hs
  · rw [if_pos (by rw [hs]; simp)]
  · rw [if_pos (by rw [hs]; simp)]

/-- C6 (amended): normalization is idempotent on every URL containing at
least one non-slash character; on URLs consisting only of slashes (which
strip to the empty string) the normalized form "https://" is itself changed
by a second normalization. -/
theorem postInitUrl_idempotent (s : String)
    (h : s.data.any (fun c => c ≠ '/') = true) :
    postInitUrl (postInitUrl s) = postInitUrl s := by
  have hne : s.data.reverse.dropWhile (fun c => c = '/') ≠ [] := by
    intro hnil
    rw [List.dropWhile_eq_nil_iff] at hnil
    rw [List.any_eq_true] at h
    rcases h with ⟨c, hc, hcne⟩
    have hcd := hnil c (List.mem_reverse.mpr hc)
    simp at hcd hcne
    exact hcne hcd
  obtain ⟨a, t, hat⟩ :
      ∃ a t, s.data.reverse.dropWhile (fun c => c = '/') = a :: t := by
    cases hcase : s.data.reverse.dropWhile (fun c => c = '/') with
    | nil => exact absurd hcase hne
    | cons a t => exact ⟨a, t, rfl⟩
  have haf : a ≠ '/' := by
    have hd := dropWhile_head_false (s.data.reverse) a t hat
    simpa using hd
  have hu : (pyRstripSlash s).data.reverse = a :: t := by
    unfold pyRstripSlash
    simp [hat]
  by_cases hc : (strStartsWith (pyRstripSlash s) "http://" ||
      strStartsWith (pyRstripSlash s) "https://") = true
  · have hps : postInitUrl s = pyRstripSlash s := by
      simp only [postInitUrl]
      rw [if_pos hc]
    rw [hps]
    exact postInitUrl_fixed (pyRstripSlash s) a t hu haf
      ((Bool.or_eq_true _ _).mp hc)
  · have hps : postInitUrl s = "https://" ++ pyRstripSlash s := by
      simp only [postInitUrl]
      rw [if_neg hc]
    rw [hps]
    apply postInitUrl_fixed ("https://" ++ pyRstripSlash s) a
      (t ++ "https://".data.reverse)
    · rw [String.data_append, List.reverse_append, hu]
      simp
    · exact haf
    · right
      unfold strStartsWith
      rw [String.data_append]
      simp [List.isPrefixOf_iff_prefix]

/-- Witness for the amended C6 at a concrete URL. -/
theorem postInitUrl_idempotent_witness :
    postInitUrl (postInitUrl "prtg.example.com/") =
      postInitUrl "prtg.example.com/" :=
  postInitUrl_idempotent "prtg.example.com/" (by decide)

/-! Model coercions: C10. -/

theorem validateStrList_strs (ss : List String) :
    validateStrList (ss.map JsonVal.str) = Except.ok (ss.map pyStrip) := by
  induction ss with
  | nil => rfl
  | cons s rest ih => simp [validateStrList, ih, Except.map]

/-- C10: constructing the shared base record (whose fields and validators
Device and Sensor inherit) from a payload with an explicit null objid
succeeds and stores the empty string, and constructing a Group from a
payload with explicit null objid and parentid succeeds and stores the empty
string for both. -/
theorem null_objid_stored_empty :
    (∀ (name : String) (ts : Option String),
      ∃ r : PRTGObjectModel,
        mkPRTGObject (some JsonVal.null) (some (JsonVal.str name))
          (ts.map JsonVal.str) = Except.ok r ∧ r.objid = "") ∧
    (∀ gname : String,
      ∃ g : Group,
        mkGroup (some JsonVal.null) (some (JsonVal.str gname)) none none
          (some JsonVal.null) = Except.ok g ∧ g.objid = "" ∧ g.parentid = "") := by
  constructor
  · intro name ts
    cases ts with
    | none => exact ⟨⟨"", pyStrip name, []⟩, rfl, rfl⟩
    | some s =>
      refine ⟨⟨"", pyStrip name, (parse_tags_list s).map pyStrip⟩, ?_, rfl⟩
      calc mkPRTGObject (some JsonVal.null) (some (JsonVal.str name))
            (some (JsonVal.str s))
          = (validateStrList ((parse_tags_list s).map JsonVal.str)).bind
              (fun tg => Except.ok (⟨"", pyStrip name, tg⟩ : PRTGObjectModel)) :=
            rfl
        _ = Except.ok ⟨"", pyStrip name, (parse_tags_list s).map pyStrip⟩ := by
            rw [validateStrList_strs]
            rfl
  · intro gname
    exact ⟨⟨"", pyStrip (pyStrip gname), "", "", ""⟩, rfl, rfl, rfl⟩

/-! Move-success heuristic: C8. -/

theorem toLower_ws_ne (c : Char) (hws : pyIsSpace c = true) :
    Char.toLower c ≠ 'o' ∧ Char.toLower c ≠ 'k' := by
  unfold pyIsSpace at hws
  simp only [Bool.or_eq_true, decide_eq_true_eq] at hws
  rcases hws with ((((h | h) | h) | h) | h) | h <;> subst h <;>
    exact ⟨by decide, by decide⟩

theorem infix_map_dropWhile (a b : Char)
    (hb : ∀ c, pyIsSpace c = true → Char.toLower c ≠ a) (l : List Char) :
    ([a, b] <:+: (l.dropWhile pyIsSpace).map Char.toLower) ↔
      ([a, b] <:+: l.map Char.toLower) := by
  induction l with
  | nil => simp
  | cons c t ih =>
    by_cases hc : pyIsSpace c
    · rw [List.dropWhile_cons_of_pos hc, ih, List.map_cons]
      constructor
      · intro hin
        exact List.infix_cons hin
      · intro hin
        rcases List.infix_cons_iff.mp hin with hpre | hinf
        · rcases hpre with ⟨r, hr⟩
          injection hr with h1 h2
          exact absurd h1.symm (hb c hc)
        · exact hinf
    · rw [List.dropWhile_cons_of_neg hc]

theorem infix_ok_rstrip (m : List Char) :
    (['o', 'k'] <:+: ((m.reverse.dropWhile pyIsSpace).reverse).map Char.toLower) ↔
      (['o', 'k'] <:+: m.map Char.toLower) := by
  rw [List.map_reverse]
  calc (['o', 'k'] <:+: ((m.reverse.dropWhile pyIsSpace).map Char.toLower).reverse)
      ↔ (['k', 'o'] <:+: (m.reverse.dropWhile pyIsSpace).map Char.toLower) := by
        rw [show (['o', 'k'] : List Char) = (['k', 'o'] : List Char).reverse from rfl,
          List.reverse_infix]
    _ ↔ (['k', 'o'] <:+: m.reverse.map Char.toLower) :=
        infix_map_dropWhile 'k' 'o' (fun c hc => (toLower_ws_ne c hc).2) m.reverse
    _ ↔ (['o', 'k'] <:+: m.map Char.toLower) := by
        rw [List.map_reverse,
          show (['k', 'o'] : List Char) = (['o', 'k'] : List Char).reverse from rfl,
          List.reverse_infix]

theorem pyInStr_ok_strip_lower (s : String) :
    pyInStr "ok" (pyLower (pyStrip s)) = pyInStr "ok" (pyLower s) := by
  unfold pyInStr pyLower pyStrip
  rw [decide_eq_decide]
  show (['o', 'k'] <:+:
      (((s.data.dropWhile pyIsSpace).reverse.dropWhile pyIsSpace).reverse).map
        Char.toLower) ↔
    (['o', 'k'] <:+: s.data.map Char.toLower)
  exact (infix_ok_rstrip (s.data.dropWhile pyIsSpace)).trans
    (infix_map_dropWhile 'o' 'k' (fun c hc => (toLower_ws_ne c hc).1) s.data)

/-- C8: for a move_device HTTP response with status below 400, the call
returns true iff the response body contains the substring "ok"
case-insensitively; when that substring is absent it raises APIError with
the unexpected-response message even though the HTTP status is
successful. -/
theorem move_device_ok_heuristic (deviceId targetGroupId : String)
    (status : Nat) (body : String) (h : status < 400) :
    (move_device_handleResponse deviceId targetGroupId status body =
        Except.ok true ↔
      pyInStr "ok" (pyLower body) = true) ∧
    (pyInStr "ok" (pyLower body) = false →
      move_device_handleResponse deviceId targetGroupId status body =
        Except.error ⟨ExcClass.apiError,
          "Unexpected response from move operation: " ++ body⟩) := by
  have h401 : status ≠ 401 := by omega
  have h404 : status ≠ 404 := by omega
  have h400 : ¬ 400 ≤ status := by omega
  unfold move_device_handleResponse
  rw [if_neg h401, if_neg h404, if_neg h400]
  simp only [pyInStr_ok_strip_lower]
  constructor
  · by_cases hin : pyInStr "ok" (pyLower body) = true <;> simp [hin]
  · intro hf
    simp [hf]

/-- Witness for C8: a 200 response whose body contains "OK" returns true,
and a 200 response without an "ok" substring raises APIError with the
unexpected-response message. -/
theorem move_device_ok_heuristic_witness :
    move_device_handleResponse "2001" "3000" 200 " Moved OK " = Except.ok true ∧
    move_device_handleResponse "2001" "3000" 200 "failure" =
      Except.error ⟨ExcClass.apiError,
        "Unexpected response from move operation: failure"⟩ :=
  ⟨((move_device_ok_heuristic "2001" "3000" 200 " Moved OK " (by decide)).1).mpr
      (by decide),
   (move_device_ok_heuristic "2001" "3000" 200 "failure" (by decide)).2
      (by decide)⟩

end Prtg
